import Mathlib

/-!
Verification of the Google-Scraper worker (src/api/index.js) against its
natural-language specification.

The worker is shallowly embedded: every `page.evaluate` callback becomes a
pure Lean function over a record of the DOM query results it reads, the
page lifecycle (launch, newPage, setUserAgent, goto, waitForSelector,
evaluate, close) becomes an explicit sequence of operations run against an
environment that says which operations fail, and the HTTP router `fetch`
becomes a function from (method, pathname, query) to a structured response.

JavaScript conventions used throughout the embedding:
- `querySelector` returning a node or nothing is `Option`,
- optional chaining `a?.b` is `Option.map`,
- `x || ""` on a possibly-undefined string is `Option.getD ""` (an empty
  string is falsy in JS, and `"" || ""` is `""`, so `getD ""` is exact),
- `x || null` on a possibly-undefined string is `orNull` below (it sends
  both `undefined` and `""` to `null`),
- a truthiness test `if (s)` on a possibly-undefined string is `truthy`,
- `Array.prototype.forEach` with `push` is the accumulator fold
  `forEachPush` / `forEachPushIdx` below,
- a thrown error carrying a message is `Except.error (msg : String)`.
-/

set_option autoImplicit false

namespace GoogleScraper

universe u v

/-- A DOM element of which the code only reads `textContent`. -/
structure Elem where
  textContent : String
  deriving DecidableEq, Repr

/-- An anchor element of which the code only reads `href`. -/
structure AnchorElem where
  href : String
  deriving DecidableEq, Repr

/-- An `input` element of which the code only reads `value`. -/
structure InputElem where
  value : String
  deriving DecidableEq, Repr

/-- An `img` element: the code reads `src`, `alt`, `naturalWidth`,
`naturalHeight`, and (in images mode) `closest("a")`. -/
structure ImgNode where
  src : String
  alt : String
  naturalWidth : Nat
  naturalHeight : Nat
  closestAnchor : Option AnchorElem
  deriving DecidableEq, Repr

/-- JS truthiness of a possibly-undefined string: `undefined` and `""` are
falsy, every other string is truthy. -/
def truthy : Option String → Bool
  | none => false
  | some s => !(s == "")

/-- JS `x || null` for a possibly-undefined string `x`: both `undefined`
and `""` become `null`. -/
def orNull : Option String → Option String
  | none => none
  | some s => if s == "" then none else some s

/-- `xs.forEach(x => { if (f x is some r) acc.push(r) })`: a left fold that
appends each produced element to the accumulator array. -/
def forEachPush {β : Type u} {γ : Type v} (f : β → Option γ) :
    List β → List γ → List γ
  | [], acc => acc
  | x :: rest, acc =>
      forEachPush f rest (match f x with | some r => acc ++ [r] | none => acc)

/-- `xs.forEach((x, index) => { if (f index x is some r) acc.push(r) })`:
the indexed variant of `forEachPush`. -/
def forEachPushIdx {β : Type u} {γ : Type v} (f : Nat → β → Option γ) :
    List β → Nat → List γ → List γ
  | [], _, acc => acc
  | x :: rest, i, acc =>
      forEachPushIdx f rest (i + 1)
        (match f i x with | some r => acc ++ [r] | none => acc)

/-! ### Images mode (`scrapeGoogleImages`): the `page.evaluate` pass -/

/-- The DOM query results the images-mode evaluate callback reads: the
value of `input[name=q]` if present, and `document.querySelectorAll("img")`
in document order. -/
structure ImagesPage where
  queryInput : Option InputElem
  imgs : List ImgNode
  deriving DecidableEq, Repr

/-- One entry of the images-mode `images` array. -/
structure ImageResult where
  src : String
  thumbnail : String
  alt : String
  width : Nat
  height : Nat
  link : String
  deriving DecidableEq, Repr

/-- The record returned by the images-mode evaluate callback. -/
structure ImagesData where
  query : String
  totalImages : Nat
  images : List ImageResult
  deriving DecidableEq, Repr

/-- The dimension filter `img.naturalWidth > 100 && img.naturalHeight > 100`. -/
def bigEnough (img : ImgNode) : Bool :=
  decide (100 < img.naturalWidth) && decide (100 < img.naturalHeight)

/-- The object pushed for each image that passes the dimension filter. -/
def mkImageResult (img : ImgNode) : ImageResult :=
  { src := img.src
    thumbnail := img.src
    alt := img.alt
    width := img.naturalWidth
    height := img.naturalHeight
    link := (img.closestAnchor.map AnchorElem.href).getD "" }

/-- The images-mode evaluate callback: collect all `img` nodes, keep those
whose natural dimensions both exceed 100, report the unclipped count as
`totalImages`, and return `images.slice(0, 50)`. -/
def imagesEvaluate (pg : ImagesPage) : ImagesData :=
  let images :=
    forEachPush
      (fun img => if bigEnough img then some (mkImageResult img) else none)
      pg.imgs []
  { query := (pg.queryInput.map InputElem.value).getD ""
    totalImages := images.length
    images := images.take 50 }

/-! ### Web mode (`scrapeGoogleSearch`): the `page.evaluate` pass -/

/-- One candidate organic result block (a `.g` or `.Gx5Zad` node): the
sub-elements the code queries inside it. -/
structure OrganicBlock where
  h3 : Option Elem
  anchor : Option AnchorElem
  snippetEl : Option Elem
  faviconImg : Option ImgNode
  cite : Option Elem
  deriving DecidableEq, Repr

/-- One entry of `organicResults`. -/
structure OrganicResult where
  title : String
  url : String
  displayUrl : String
  snippet : String
  favicon : Option String
  deriving DecidableEq, Repr

/-- The featured snippet block (`.xpdopen, .kp-blk, .IZ6rdc`), when present. -/
structure FeaturedBlock where
  titleEl : Option Elem
  textEl : Option Elem
  anchor : Option AnchorElem
  deriving DecidableEq, Repr

/-- The `featuredSnippet` output record. -/
structure FeaturedSnippet where
  title : String
  text : String
  url : String
  deriving DecidableEq, Repr

/-- One fact row inside the knowledge panel (`.rVusze, .wDYxhc`). -/
structure FactBlock where
  labelEl : Option Elem
  valueEl : Option Elem
  deriving DecidableEq, Repr

/-- One emitted knowledge-panel fact. -/
structure Fact where
  label : String
  value : String
  deriving DecidableEq, Repr

/-- The knowledge panel block (`.kp-wholepage, .knowledge-panel`), when
present. -/
structure KnowledgeBlock where
  titleEl : Option Elem
  subtitleEl : Option Elem
  descriptionEl : Option Elem
  image : Option ImgNode
  factBlocks : List FactBlock
  deriving DecidableEq, Repr

/-- The `knowledgePanel` output record. -/
structure KnowledgePanel where
  title : String
  subtitle : String
  description : String
  image : Option String
  facts : List Fact
  deriving DecidableEq, Repr

/-- One People-Also-Ask block (`.related-question-pair, .JolIg`). -/
structure PaaBlock where
  questionEl : Option Elem
  deriving DecidableEq, Repr

/-- One emitted People-Also-Ask entry. -/
structure PaaEntry where
  question : String
  deriving DecidableEq, Repr

/-- One related-search chip (`.k8XOCe, .s75CSd`): its own text content and
its `closest("a")`. -/
structure RelatedBlock where
  textContent : String
  closestAnchor : Option AnchorElem
  deriving DecidableEq, Repr

/-- One emitted related-search entry. -/
structure RelatedSearch where
  text : String
  url : String
  deriving DecidableEq, Repr

/-- One entry of the web-mode inline `images` array. -/
structure InlineImage where
  src : String
  alt : String
  width : Option Nat
  height : Option Nat
  deriving DecidableEq, Repr

/-- One inline video block (`.RzdJxc, .VibNM`). -/
structure WebVideoBlock where
  h3 : Option Elem
  anchor : Option AnchorElem
  img : Option ImgNode
  durationEl : Option Elem
  sourceEl : Option Elem
  deriving DecidableEq, Repr

/-- One entry of the web-mode `videos` array. -/
structure WebVideo where
  title : String
  url : String
  thumbnail : Option String
  duration : Option String
  source : String
  deriving DecidableEq, Repr

/-- One inline news block (`.SoaBEf, .WlydOe`). -/
structure WebNewsBlock where
  titleEl : Option Elem
  anchor : Option AnchorElem
  sourceEl : Option Elem
  timeEl : Option Elem
  snippetEl : Option Elem
  deriving DecidableEq, Repr

/-- One entry of the web-mode `news` array. -/
structure WebNews where
  title : String
  url : String
  source : String
  time : String
  snippet : String
  deriving DecidableEq, Repr

/-- One site-link block (`.usJj9c`). -/
structure SiteLinkBlock where
  h3 : Option Elem
  anchor : Option AnchorElem
  snippetEl : Option Elem
  deriving DecidableEq, Repr

/-- One entry of the web-mode `siteLinks` array. -/
structure SiteLink where
  title : String
  url : String
  snippet : String
  deriving DecidableEq, Repr

/-- The DOM query results the web-mode evaluate callback reads, each list
in document order. -/
structure WebPage where
  queryInput : Option InputElem
  resultStats : Option Elem
  organicBlocks : List OrganicBlock
  featuredBlock : Option FeaturedBlock
  knowledgeBlock : Option KnowledgeBlock
  paaBlocks : List PaaBlock
  relatedBlocks : List RelatedBlock
  inlineImages : List ImgNode
  videoBlocks : List WebVideoBlock
  newsBlocks : List WebNewsBlock
  siteLinkBlocks : List SiteLinkBlock
  deriving DecidableEq, Repr

/-- The `searchInfo` output record. -/
structure SearchInfo where
  text : Option String
  deriving DecidableEq, Repr

/-- The record returned by the web-mode evaluate callback. -/
structure WebData where
  query : String
  searchInfo : SearchInfo
  organicResults : List OrganicResult
  featuredSnippet : Option FeaturedSnippet
  knowledgePanel : Option KnowledgePanel
  peopleAlsoAsk : List PaaEntry
  relatedSearches : List RelatedSearch
  images : List InlineImage
  videos : List WebVideo
  news : List WebNews
  siteLinks : List SiteLink
  deriving DecidableEq, Repr

/-- Per organic block: `if (titleElement && linkElement)` — the guard tests
only the PRESENCE of the `h3` and `a` elements — push the entry. -/
def extractOrganic (b : OrganicBlock) : Option OrganicResult :=
  match b.h3, b.anchor with
  | some titleElement, some linkElement =>
      some { title := titleElement.textContent.trim
             url := linkElement.href
             displayUrl := (b.cite.map (fun e => e.textContent.trim)).getD ""
             snippet := (b.snippetEl.map (fun e => e.textContent.trim)).getD ""
             favicon := b.faviconImg.map ImgNode.src }
  | _, _ => none

/-- The featured-snippet record built when the block is present. -/
def mkFeaturedSnippet (b : FeaturedBlock) : FeaturedSnippet :=
  { title := (b.titleEl.map (fun e => e.textContent.trim)).getD ""
    text := (b.textEl.map (fun e => e.textContent.trim)).getD ""
    url := (b.anchor.map AnchorElem.href).getD "" }

/-- Per fact row: `if (label && value)` — both trimmed strings truthy —
push `{label, value}`. -/
def extractFact (b : FactBlock) : Option Fact :=
  let label := b.labelEl.map (fun e => e.textContent.trim)
  let value := b.valueEl.map (fun e => e.textContent.trim)
  if truthy label && truthy value then
    some { label := label.getD "", value := value.getD "" }
  else none

/-- The knowledge-panel record built when the block is present, with its
facts collected by `extractFact` over the fact rows. -/
def mkKnowledgePanel (b : KnowledgeBlock) : KnowledgePanel :=
  { title := (b.titleEl.map (fun e => e.textContent.trim)).getD ""
    subtitle := (b.subtitleEl.map (fun e => e.textContent.trim)).getD ""
    description := (b.descriptionEl.map (fun e => e.textContent.trim)).getD ""
    image := orNull (b.image.map ImgNode.src)
    facts := forEachPush extractFact b.factBlocks [] }

/-- Per PAA block: `if (question)` — truthy trimmed string — push it. -/
def extractPaa (b : PaaBlock) : Option PaaEntry :=
  let question := b.questionEl.map (fun e => e.textContent.trim)
  if truthy question then some { question := question.getD "" } else none

/-- Per related-search chip: `if (text && link)` push `{text, url}`. -/
def extractRelated (b : RelatedBlock) : Option RelatedSearch :=
  let text := b.textContent.trim
  let link := b.closestAnchor.map AnchorElem.href
  if !(text == "") && truthy link then
    some { text := text, url := link.getD "" }
  else none

/-- The object pushed for an inline image (`naturalWidth || null` sends a
zero dimension to `null`). -/
def mkInlineImage (img : ImgNode) : InlineImage :=
  { src := img.src
    alt := img.alt
    width := if img.naturalWidth == 0 then none else some img.naturalWidth
    height := if img.naturalHeight == 0 then none else some img.naturalHeight }

/-- Per inline video block: `if (title && link)` — truthy strings — push. -/
def extractWebVideo (b : WebVideoBlock) : Option WebVideo :=
  let title := b.h3.map (fun e => e.textContent.trim)
  let link := b.anchor.map AnchorElem.href
  if truthy title && truthy link then
    some { title := title.getD ""
           url := link.getD ""
           thumbnail := orNull (b.img.map ImgNode.src)
           duration := orNull (b.durationEl.map (fun e => e.textContent.trim))
           source := (b.sourceEl.map (fun e => e.textContent.trim)).getD "" }
  else none

/-- Per inline news block: `if (title && link)` — truthy strings — push. -/
def extractWebNews (b : WebNewsBlock) : Option WebNews :=
  let title := b.titleEl.map (fun e => e.textContent.trim)
  let link := b.anchor.map AnchorElem.href
  if truthy title && truthy link then
    some { title := title.getD ""
           url := link.getD ""
           source := (b.sourceEl.map (fun e => e.textContent.trim)).getD ""
           time := (b.timeEl.map (fun e => e.textContent.trim)).getD ""
           snippet := (b.snippetEl.map (fun e => e.textContent.trim)).getD "" }
  else none

/-- Per site-link block: `if (title && link)` — truthy strings — push. -/
def extractSiteLink (b : SiteLinkBlock) : Option SiteLink :=
  let title := b.h3.map (fun e => e.textContent.trim)
  let link := b.anchor.map AnchorElem.href
  if truthy title && truthy link then
    some { title := title.getD ""
           url := link.getD ""
           snippet := (b.snippetEl.map (fun e => e.textContent.trim)).getD "" }
  else none

/-- The web-mode evaluate callback, assembling all output collections from
the queried DOM, with the inline-image loop keeping only indices below 20. -/
def webEvaluate (pg : WebPage) : WebData :=
  { query := (pg.queryInput.map InputElem.value).getD ""
    searchInfo := { text := pg.resultStats.map (fun e => e.textContent.trim) }
    organicResults := forEachPush extractOrganic pg.organicBlocks []
    featuredSnippet := pg.featuredBlock.map mkFeaturedSnippet
    knowledgePanel := pg.knowledgeBlock.map mkKnowledgePanel
    peopleAlsoAsk := forEachPush extractPaa pg.paaBlocks []
    relatedSearches := forEachPush extractRelated pg.relatedBlocks []
    images :=
      forEachPushIdx
        (fun index img => if index < 20 then some (mkInlineImage img) else none)
        pg.inlineImages 0 []
    videos := forEachPush extractWebVideo pg.videoBlocks []
    news := forEachPush extractWebNews pg.newsBlocks []
    siteLinks := forEachPush extractSiteLink pg.siteLinkBlocks [] }

/-! ### Videos mode (`scrapeGoogleVideos`): the `page.evaluate` pass -/

/-- One videos-mode result block (a `.g` node). -/
structure VideoBlock where
  h3 : Option Elem
  anchor : Option AnchorElem
  img : Option ImgNode
  sourceEl : Option Elem
  durationEl : Option Elem
  uploadDateEl : Option Elem
  descriptionEl : Option Elem
  deriving DecidableEq, Repr

/-- One entry of the videos-mode `videos` array. -/
structure VideoResult where
  title : String
  url : String
  thumbnail : Option String
  source : String
  duration : Option String
  uploadDate : String
  description : String
  deriving DecidableEq, Repr

/-- The DOM query results the videos-mode evaluate callback reads. -/
structure VideosPage where
  queryInput : Option InputElem
  blocks : List VideoBlock
  deriving DecidableEq, Repr

/-- The record returned by the videos-mode evaluate callback. -/
structure VideosData where
  query : String
  totalVideos : Nat
  videos : List VideoResult
  deriving DecidableEq, Repr

/-- Per videos-mode block: `if (title && link)` — truthy strings — push. -/
def extractVideo (b : VideoBlock) : Option VideoResult :=
  let title := b.h3.map (fun e => e.textContent.trim)
  let link := b.anchor.map AnchorElem.href
  if truthy title && truthy link then
    some { title := title.getD ""
           url := link.getD ""
           thumbnail := orNull (b.img.map ImgNode.src)
           source := (b.sourceEl.map (fun e => e.textContent.trim)).getD ""
           duration := orNull (b.durationEl.map (fun e => e.textContent.trim))
           uploadDate := (b.uploadDateEl.map (fun e => e.textContent.trim)).getD ""
           description := (b.descriptionEl.map (fun e => e.textContent.trim)).getD "" }
  else none

/-- The videos-mode evaluate callback. -/
def videosEvaluate (pg : VideosPage) : VideosData :=
  let videos := forEachPush extractVideo pg.blocks []
  { query := (pg.queryInput.map InputElem.value).getD ""
    totalVideos := videos.length
    videos := videos }

/-! ### News mode (`scrapeGoogleNews`): the `page.evaluate` pass -/

/-- One news-mode article block (`.SoaBEf, .WlydOe, .Gx5Zad`). -/
structure ArticleBlock where
  titleEl : Option Elem
  anchor : Option AnchorElem
  sourceEl : Option Elem
  timeEl : Option Elem
  snippetEl : Option Elem
  img : Option ImgNode
  deriving DecidableEq, Repr

/-- One entry of the news-mode `articles` array. -/
structure ArticleResult where
  title : String
  url : String
  source : String
  publishedTime : String
  snippet : String
  thumbnail : Option String
  deriving DecidableEq, Repr

/-- The DOM query results the news-mode evaluate callback reads. -/
structure NewsPage where
  queryInput : Option InputElem
  blocks : List ArticleBlock
  deriving DecidableEq, Repr

/-- The record returned by the news-mode evaluate callback. -/
structure NewsData where
  query : String
  totalArticles : Nat
  articles : List ArticleResult
  deriving DecidableEq, Repr

/-- Per news-mode block: `if (title && link)` — truthy strings — push. -/
def extractArticle (b : ArticleBlock) : Option ArticleResult :=
  let title := b.titleEl.map (fun e => e.textContent.trim)
  let link := b.anchor.map AnchorElem.href
  if truthy title && truthy link then
    some { title := title.getD ""
           url := link.getD ""
           source := (b.sourceEl.map (fun e => e.textContent.trim)).getD ""
           publishedTime := (b.timeEl.map (fun e => e.textContent.trim)).getD ""
           snippet := (b.snippetEl.map (fun e => e.textContent.trim)).getD ""
           thumbnail := orNull (b.img.map ImgNode.src) }
  else none

/-- The news-mode evaluate callback. -/
def newsEvaluate (pg : NewsPage) : NewsData :=
  let articles := forEachPush extractArticle pg.blocks []
  { query := (pg.queryInput.map InputElem.value).getD ""
    totalArticles := articles.length
    articles := articles }

/-! ### Page lifecycle shared by the four scraper functions

Each scraper runs `puppeteer.launch`, `browser.newPage()`, then inside a
`try` block a fixed sequence of page operations, then `browser.close()`;
its `catch` block runs `browser.close()` and rethrows.  `launch` and
`newPage` sit OUTSIDE the `try` block in the source.  Every awaited
operation may reject; the environment below records which ones do and with
what message. -/

/-- The navigation target: `https://www.google.com/search?q=` followed by
`encodeURIComponent(query)` (the encoding itself is the JS builtin and is
kept abstract), an optional `&tbm=` mode tag, and `&hl=en`. -/
structure GoogleUrl where
  query : String
  tbm : Option String
  deriving DecidableEq, Repr

/-- One awaited page operation between `newPage` and `close`. -/
inductive PageOp where
  | setUserAgent (ua : String)
  | goto (url : GoogleUrl) (timeoutMs : Nat)
  | waitForSelector (selector : String) (timeoutMs : Nat)
  | evaluateScroll
  | evaluateExtract
  deriving DecidableEq, Repr

/-- The user-agent string every mode sets. -/
def userAgent : String :=
  "Mozilla/5.0 (Windows NT 10.0; Win64; x64) AppleWebKit/537.36 (KHTML, like Gecko) Chrome/120.0.0.0 Safari/537.36"

/-- Page operations of `scrapeGoogleSearch`, in source order. -/
def searchSteps (query : String) : List PageOp :=
  [ PageOp.setUserAgent userAgent,
    PageOp.goto { query := query, tbm := none } 30000,
    PageOp.waitForSelector "#search" 10000,
    PageOp.evaluateExtract ]

/-- Page operations of `scrapeGoogleImages`, in source order: after `goto`
it runs the scrolling evaluate (three scroll-and-1s-wait cycles) and then
the extraction evaluate; it never calls `waitForSelector`. -/
def imagesSteps (query : String) : List PageOp :=
  [ PageOp.setUserAgent userAgent,
    PageOp.goto { query := query, tbm := some "isch" } 30000,
    PageOp.evaluateScroll,
    PageOp.evaluateExtract ]

/-- Page operations of `scrapeGoogleVideos`, in source order. -/
def videosSteps (query : String) : List PageOp :=
  [ PageOp.setUserAgent userAgent,
    PageOp.goto { query := query, tbm := some "vid" } 30000,
    PageOp.waitForSelector ".g" 10000,
    PageOp.evaluateExtract ]

/-- Page operations of `scrapeGoogleNews`, in source order. -/
def newsSteps (query : String) : List PageOp :=
  [ PageOp.setUserAgent userAgent,
    PageOp.goto { query := query, tbm := some "nws" } 30000,
    PageOp.waitForSelector ".SoaBEf, .WlydOe" 10000,
    PageOp.evaluateExtract ]

/-- Which awaited calls reject during one scraper invocation, and with what
error message: `none` means the call succeeds.  `closeFail1` governs the
first `browser.close()` invocation, `closeFail2` a second one if reached. -/
structure ScrapeEnv where
  launchFail : Option String
  newPageFail : Option String
  opFail : PageOp → Option String
  closeFail1 : Option String
  closeFail2 : Option String

/-- The environment in which every awaited call succeeds. -/
def ScrapeEnv.allOk : ScrapeEnv :=
  { launchFail := none
    newPageFail := none
    opFail := fun _ => none
    closeFail1 := none
    closeFail2 := none }

/-- Run the page operations in order; the first rejection aborts the
sequence and its message is thrown. -/
def runOps (fails : PageOp → Option String) : List PageOp → Option String
  | [] => none
  | op :: rest =>
      match fails op with
      | some m => some m
      | none => runOps fails rest

/-- The success envelope `{success: true, timestamp, data}`. -/
structure Envelope (α : Type u) where
  success : Bool
  timestamp : String
  data : α
  deriving DecidableEq, Repr

/-- Outcome of one scraper invocation: the settled promise, plus how many
times `browser.close()` was invoked. -/
structure RunResult (α : Type u) where
  result : Except String α
  closeCount : Nat
  deriving Repr

/-- The shared scraper control flow, transcribed from the source:
`launch`; `newPage`; `try { steps; close(); return envelope } catch (e)
{ close(); throw e }`.  A rejection of `launch` or `newPage` propagates
without entering the `try` block, so no `close` runs for it.  A rejection
of the success-path `close()` is itself caught by the `catch` block, which
invokes `close()` a second time. -/
def runScraper {α : Type u} (env : ScrapeEnv) (steps : List PageOp)
    (data : α) (now : String) : RunResult (Envelope α) :=
  match env.launchFail with
  | some m => { result := Except.error m, closeCount := 0 }
  | none =>
    match env.newPageFail with
    | some m => { result := Except.error m, closeCount := 0 }
    | none =>
      match runOps env.opFail steps with
      | some m =>
        match env.closeFail1 with
        | some m2 => { result := Except.error m2, closeCount := 1 }
        | none => { result := Except.error m, closeCount := 1 }
      | none =>
        match env.closeFail1 with
        | none =>
            { result :=
                Except.ok { success := true, timestamp := now, data := data }
              closeCount := 1 }
        | some m1 =>
          match env.closeFail2 with
          | some m2 => { result := Except.error m2, closeCount := 2 }
          | none => { result := Except.error m1, closeCount := 2 }

/-- `scrapeGoogleSearch(query, env)`: the web-mode scraper. -/
def scrapeGoogleSearch (query : String) (env : ScrapeEnv) (pg : WebPage)
    (now : String) : RunResult (Envelope WebData) :=
  runScraper env (searchSteps query) (webEvaluate pg) now

/-- `scrapeGoogleImages(query, env)`: the images-mode scraper. -/
def scrapeGoogleImages (query : String) (env : ScrapeEnv) (pg : ImagesPage)
    (now : String) : RunResult (Envelope ImagesData) :=
  runScraper env (imagesSteps query) (imagesEvaluate pg) now

/-- `scrapeGoogleVideos(query, env)`: the videos-mode scraper. -/
def scrapeGoogleVideos (query : String) (env : ScrapeEnv) (pg : VideosPage)
    (now : String) : RunResult (Envelope VideosData) :=
  runScraper env (videosSteps query) (videosEvaluate pg) now

/-- `scrapeGoogleNews(query, env)`: the news-mode scraper. -/
def scrapeGoogleNews (query : String) (env : ScrapeEnv) (pg : NewsPage)
    (now : String) : RunResult (Envelope NewsData) :=
  runScraper env (newsSteps query) (newsEvaluate pg) now

/-! ### The HTTP router (`fetch` in the default export)

`fetch` reads the request method, pathname and the `q` search parameter
(`searchParams.get` yields `null` when absent, so `q` is an `Option`),
dispatches to one scraper, and serializes the outcome.  The embedding
additionally records which scrapers were invoked. -/

/-- The four extraction modes. -/
inductive Mode where
  | web
  | images
  | videos
  | news
  deriving DecidableEq, Repr

/-- The JSON body of a response, kept structured: `errorMsg m` stands for
`JSON.stringify({error: m})`, the four `Ok` constructors for the
serialized success envelope, `health` for the health-check record, and
`emptyBody` for the `null` body of the OPTIONS preflight response. -/
inductive Body where
  | emptyBody
  | health
  | webOk (e : Envelope WebData)
  | imagesOk (e : Envelope ImagesData)
  | videosOk (e : Envelope VideosData)
  | newsOk (e : Envelope NewsData)
  | errorMsg (msg : String)
  deriving DecidableEq, Repr

/-- One HTTP response together with the list of scraper invocations the
request triggered, in order. -/
structure FetchOutcome where
  status : Nat
  body : Body
  invoked : List Mode
  deriving DecidableEq, Repr

/-- The exact message of the missing-parameter error body. -/
def missingQueryMsg : String := "Missing query parameter \x27q\x27"

/-- The router, transcribed from the source: OPTIONS preflight, health
check, the four endpoints (each validating `q` by JS truthiness before
invoking its scraper and mapping a rejection to a 500 with the error
message), and the 404 fallback. -/
def fetch (method : String) (pathname : String) (q : Option String)
    (env : ScrapeEnv) (wpg : WebPage) (ipg : ImagesPage) (vpg : VideosPage)
    (npg : NewsPage) (now : String) : FetchOutcome :=
  if method == "OPTIONS" then
    { status := 200, body := Body.emptyBody, invoked := [] }
  else if pathname == "/" || pathname == "/health" then
    { status := 200, body := Body.health, invoked := [] }
  else if pathname == "/search" then
    if !truthy q then
      { status := 400, body := Body.errorMsg missingQueryMsg, invoked := [] }
    else
      match (scrapeGoogleSearch (q.getD "") env wpg now).result with
      | Except.ok e =>
          { status := 200, body := Body.webOk e, invoked := [Mode.web] }
      | Except.error m =>
          { status := 500, body := Body.errorMsg m, invoked := [Mode.web] }
  else if pathname == "/images" then
    if !truthy q then
      { status := 400, body := Body.errorMsg missingQueryMsg, invoked := [] }
    else
      match (scrapeGoogleImages (q.getD "") env ipg now).result with
      | Except.ok e =>
          { status := 200, body := Body.imagesOk e, invoked := [Mode.images] }
      | Except.error m =>
          { status := 500, body := Body.errorMsg m, invoked := [Mode.images] }
  else if pathname == "/videos" then
    if !truthy q then
      { status := 400, body := Body.errorMsg missingQueryMsg, invoked := [] }
    else
      match (scrapeGoogleVideos (q.getD "") env vpg now).result with
      | Except.ok e =>
          { status := 200, body := Body.videosOk e, invoked := [Mode.videos] }
      | Except.error m =>
          { status := 500, body := Body.errorMsg m, invoked := [Mode.videos] }
  else if pathname == "/news" then
    if !truthy q then
      { status := 400, body := Body.errorMsg missingQueryMsg, invoked := [] }
    else
      match (scrapeGoogleNews (q.getD "") env npg now).result with
      | Except.ok e =>
          { status := 200, body := Body.newsOk e, invoked := [Mode.news] }
      | Except.error m =>
          { status := 500, body := Body.errorMsg m, invoked := [Mode.news] }
  else
    { status := 404, body := Body.errorMsg "Endpoint not found", invoked := [] }

/-! ### Concrete fixtures used by counterexamples and witnesses -/

/-- A rendered web page on which every DOM query comes back empty. -/
def emptyWebPage : WebPage :=
  { queryInput := none
    resultStats := none
    organicBlocks := []
    featuredBlock := none
    knowledgeBlock := none
    paaBlocks := []
    relatedBlocks := []
    inlineImages := []
    videoBlocks := []
    newsBlocks := []
    siteLinkBlocks := [] }

/-- An images page with no `img` nodes. -/
def emptyImagesPage : ImagesPage := { queryInput := none, imgs := [] }

/-- A videos page with no result blocks. -/
def emptyVideosPage : VideosPage := { queryInput := none, blocks := [] }

/-- A news page with no article blocks. -/
def emptyNewsPage : NewsPage := { queryInput := none, blocks := [] }

/-- Environment in which `puppeteer.launch` rejects. -/
def envLaunchFails : ScrapeEnv :=
  { ScrapeEnv.allOk with launchFail := some "launch failed" }

/-- Environment in which `browser.newPage()` rejects (the launch has
already succeeded). -/
def envNewPageFails : ScrapeEnv :=
  { ScrapeEnv.allOk with newPageFail := some "newPage failed" }

/-- Environment in which every page operation succeeds but the first
`browser.close()` invocation rejects. -/
def envCloseFails : ScrapeEnv :=
  { ScrapeEnv.allOk with closeFail1 := some "close failed" }

/-- An organic result block whose `h3` and `a` elements are PRESENT but
carry an empty text content and an empty `href`. -/
def emptyTitleBlock : OrganicBlock :=
  { h3 := some { textContent := "" }
    anchor := some { href := "" }
    snippetEl := none
    faviconImg := none
    cite := none }

/-- A web page whose only organic block is `emptyTitleBlock`. -/
def pgEmptyTitle : WebPage := { emptyWebPage with organicBlocks := [emptyTitleBlock] }

/-- An ordinary organic result block with a title and a link. -/
def goodBlock : OrganicBlock :=
  { h3 := some { textContent := "Example" }
    anchor := some { href := "https://example.com" }
    snippetEl := none
    faviconImg := none
    cite := none }

/-- A web page whose only organic block is `goodBlock`. -/
def pgGood : WebPage := { emptyWebPage with organicBlocks := [goodBlock] }

/-- The entry the web evaluate emits for `goodBlock`. -/
def goodResult : OrganicResult :=
  { title := "Example".trim, url := "https://example.com", displayUrl := ""
    snippet := "", favicon := none }

/-- The entry the web evaluate emits for `emptyTitleBlock`: both required
fields are empty strings. -/
def emptyFieldsResult : OrganicResult :=
  { title := "".trim, url := "", displayUrl := ""
    snippet := "", favicon := none }

/-- A large image node that passes the dimension filter. -/
def bigImg : ImgNode :=
  { src := "s", alt := "", naturalWidth := 200, naturalHeight := 200
    closestAnchor := none }

/-- An images page with 51 large images: more filtered candidates than the
50-entry cap. -/
def manyImagesPage : ImagesPage :=
  { queryInput := none, imgs := List.replicate 51 bigImg }

/-- Does a page operation call `waitForSelector`? -/
def isWaitOp : PageOp → Bool
  | PageOp.waitForSelector _ _ => true
  | _ => false

/-- Does a resolved scraper promise respect the success contract?  `true`
for a rejection; for a resolution, the envelope field `success`. -/
def okSuccess {α : Type u} : Except String (Envelope α) → Bool
  | Except.ok e => e.success
  | Except.error _ => true

/-! ### Helper lemmas about the fold combinators -/

theorem forEachPush_eq {β : Type u} {γ : Type v} (f : β → Option γ) :
    ∀ (xs : List β) (acc : List γ), forEachPush f xs acc = acc ++ xs.filterMap f
  | [], acc => by simp [forEachPush]
  | x :: rest, acc => by
      cases h : f x with
      | none => simp [forEachPush, h, forEachPush_eq f rest acc]
      | some r => simp [forEachPush, h, forEachPush_eq f rest (acc ++ [r])]

theorem forEachPushIdx_take {β : Type u} {γ : Type v} (g : β → γ) (n : Nat) :
    ∀ (xs : List β) (i : Nat) (acc : List γ),
      forEachPushIdx (fun idx x => if idx < n then some (g x) else none) xs i acc
        = acc ++ (xs.take (n - i)).map g
  | [], i, acc => by simp [forEachPushIdx]
  | x :: rest, i, acc => by
      by_cases h : i < n
      · have h1 : n - i = (n - (i + 1)) + 1 := by omega
        simp [forEachPushIdx, h, h1, forEachPushIdx_take g n rest (i + 1)]
      · have h0 : n - i = 0 := by omega
        have h1 : n - (i + 1) = 0 := by omega
        simp [forEachPushIdx, h, h0, h1, forEachPushIdx_take g n rest (i + 1)]

theorem filterMap_if_eq_map_filter {β : Type u} {γ : Type v} (p : β → Bool)
    (g : β → γ) :
    ∀ xs : List β,
      xs.filterMap (fun x => if p x then some (g x) else none)
        = (xs.filter p).map g
  | [] => rfl
  | x :: rest => by
      by_cases h : p x
      · simp [List.filterMap_cons, List.filter_cons, h,
          filterMap_if_eq_map_filter p g rest]
      · simp [List.filterMap_cons, List.filter_cons, h,
          filterMap_if_eq_map_filter p g rest]

/-! ### Claim theorems -/

/-- Claim C3: the images-mode extraction keeps exactly the image nodes
whose natural width and height both strictly exceed 100, returns at most
the first 50 of them in `images`, and returns in `totalImages` the count
of all dimension-filtered candidates before the 50-cap is applied. -/
theorem images_filter_cap_total (pg : ImagesPage) :
    (imagesEvaluate pg).images
        = ((pg.imgs.filter (fun img =>
              decide (100 < img.naturalWidth)
                && decide (100 < img.naturalHeight))).map mkImageResult).take 50
      ∧ (imagesEvaluate pg).totalImages
          = (pg.imgs.filter (fun img =>
              decide (100 < img.naturalWidth)
                && decide (100 < img.naturalHeight))).length
      ∧ (imagesEvaluate pg).images.length ≤ 50 := by
  have hb : (fun img => decide (100 < img.naturalWidth)
      && decide (100 < img.naturalHeight)) = bigEnough := rfl
  rw [hb]
  refine ⟨?_, ?_, ?_⟩
  · simp [imagesEvaluate, forEachPush_eq, filterMap_if_eq_map_filter]
  · simp [imagesEvaluate, forEachPush_eq, filterMap_if_eq_map_filter]
  · simp [imagesEvaluate]

/-- Claim C8: the web-mode inline `images` list is exactly the first 20
matched inline image nodes in document order, hence never longer than
20. -/
theorem web_inline_images_cap (pg : WebPage) :
    (webEvaluate pg).images = (pg.inlineImages.take 20).map mkInlineImage
      ∧ (webEvaluate pg).images.length ≤ 20 := by
  have h : (webEvaluate pg).images = (pg.inlineImages.take 20).map mkInlineImage := by
    simp [webEvaluate, forEachPushIdx_take]
  refine ⟨h, ?_⟩
  rw [h]
  simp [List.length_take]

/-- Claim C9: the videos-mode `totalVideos` equals the length of the
emitted `videos` list and the news-mode `totalArticles` equals the length
of the emitted `articles` list; by contrast the images-mode `totalImages`
can exceed the length of the emitted (capped) `images` list. -/
theorem totals_equal_list_lengths (vpg : VideosPage) (npg : NewsPage) :
    (videosEvaluate vpg).totalVideos = (videosEvaluate vpg).videos.length
      ∧ (newsEvaluate npg).totalArticles = (newsEvaluate npg).articles.length
      ∧ (imagesEvaluate manyImagesPage).totalImages = 51
      ∧ (imagesEvaluate manyImagesPage).images.length = 50 := by
  refine ⟨rfl, rfl, ?_, ?_⟩ <;> decide

/-- Claim C7: every output collection of every mode preserves exactly the
document order of the matched DOM nodes: each list is a `filterMap` (an
order-preserving emit-or-skip pass, with no re-sorting, deduplication, or
scoring) of the corresponding node list, and the two caps take a prefix of
that order (`take 20` of the inline images, `take 50` of the filtered
standalone images). -/
theorem extraction_document_order (wpg : WebPage) (ipg : ImagesPage)
    (vpg : VideosPage) (npg : NewsPage) :
    (webEvaluate wpg).organicResults = wpg.organicBlocks.filterMap extractOrganic
      ∧ (webEvaluate wpg).peopleAlsoAsk = wpg.paaBlocks.filterMap extractPaa
      ∧ (webEvaluate wpg).relatedSearches
          = wpg.relatedBlocks.filterMap extractRelated
      ∧ (webEvaluate wpg).images = (wpg.inlineImages.take 20).map mkInlineImage
      ∧ (webEvaluate wpg).videos = wpg.videoBlocks.filterMap extractWebVideo
      ∧ (webEvaluate wpg).news = wpg.newsBlocks.filterMap extractWebNews
      ∧ (webEvaluate wpg).siteLinks = wpg.siteLinkBlocks.filterMap extractSiteLink
      ∧ (imagesEvaluate ipg).images
          = ((ipg.imgs.filter bigEnough).map mkImageResult).take 50
      ∧ (videosEvaluate vpg).videos = vpg.blocks.filterMap extractVideo
      ∧ (newsEvaluate npg).articles = npg.blocks.filterMap extractArticle := by
  refine ⟨?_, ?_, ?_, ?_, ?_, ?_, ?_, ?_, ?_, ?_⟩ <;>
    simp [webEvaluate, imagesEvaluate, videosEvaluate, newsEvaluate,
      forEachPush_eq, forEachPushIdx_take, filterMap_if_eq_map_filter]

/-- Claim C2: on each of the four extraction endpoints, a request whose
`q` parameter is absent (`none`) or empty (`some ""`) yields HTTP 400 with
the exact body `{error: "Missing query parameter 'q'"}` and invokes no
extraction function. -/
theorem router_missing_query_400 (env : ScrapeEnv) (wpg : WebPage)
    (ipg : ImagesPage) (vpg : VideosPage) (npg : NewsPage) (now : String) :
    (fetch "GET" "/search" none env wpg ipg vpg npg now
        = { status := 400, body := Body.errorMsg missingQueryMsg, invoked := [] })
      ∧ (fetch "GET" "/search" (some "") env wpg ipg vpg npg now
        = { status := 400, body := Body.errorMsg missingQueryMsg, invoked := [] })
      ∧ (fetch "GET" "/images" none env wpg ipg vpg npg now
        = { status := 400, body := Body.errorMsg missingQueryMsg, invoked := [] })
      ∧ (fetch "GET" "/images" (some "") env wpg ipg vpg npg now
        = { status := 400, body := Body.errorMsg missingQueryMsg, invoked := [] })
      ∧ (fetch "GET" "/videos" none env wpg ipg vpg npg now
        = { status := 400, body := Body.errorMsg missingQueryMsg, invoked := [] })
      ∧ (fetch "GET" "/videos" (some "") env wpg ipg vpg npg now
        = { status := 400, body := Body.errorMsg missingQueryMsg, invoked := [] })
      ∧ (fetch "GET" "/news" none env wpg ipg vpg npg now
        = { status := 400, body := Body.errorMsg missingQueryMsg, invoked := [] })
      ∧ (fetch "GET" "/news" (some "") env wpg ipg vpg npg now
        = { status := 400, body := Body.errorMsg missingQueryMsg, invoked := [] }) :=
  ⟨rfl, rfl, rfl, rfl, rfl, rfl, rfl, rfl⟩

theorem runScraper_okSuccess {α : Type u} (env : ScrapeEnv)
    (steps : List PageOp) (data : α) (now : String) :
    okSuccess (runScraper env steps data now).result = true := by
  unfold runScraper
  cases env.launchFail with
  | some m => rfl
  | none =>
    cases env.newPageFail with
    | some m => rfl
    | none =>
      cases runOps env.opFail steps with
      | some m =>
        cases env.closeFail1 with
        | some m2 => rfl
        | none => rfl
      | none =>
        cases env.closeFail1 with
        | none => rfl
        | some m1 =>
          cases env.closeFail2 with
          | some m2 => rfl
          | none => rfl

/-- Claim C10: whenever any of the four scrapers resolves rather than
rejecting, the returned envelope has `success = true`; an envelope with
`success = false` is never produced. -/
theorem scrapers_resolve_with_success_true (q : String) (env : ScrapeEnv)
    (wpg : WebPage) (ipg : ImagesPage) (vpg : VideosPage) (npg : NewsPage)
    (now : String) :
    okSuccess (scrapeGoogleSearch q env wpg now).result = true
      ∧ okSuccess (scrapeGoogleImages q env ipg now).result = true
      ∧ okSuccess (scrapeGoogleVideos q env vpg now).result = true
      ∧ okSuccess (scrapeGoogleNews q env npg now).result = true :=
  ⟨runScraper_okSuccess env _ _ now, runScraper_okSuccess env _ _ now,
    runScraper_okSuccess env _ _ now, runScraper_okSuccess env _ _ now⟩

/-- Claim C1 (violations): when `browser.newPage()` rejects — an await
placed OUTSIDE the `try` block — every scraper rethrows without ever
invoking `browser.close()`, leaking the launched browser; and when the
success-path `browser.close()` rejects, the `catch` block invokes `close`
a second time. -/
theorem page_close_contract_violations :
    ((scrapeGoogleSearch "cat" envNewPageFails emptyWebPage "t").result
        = Except.error "newPage failed"
      ∧ (scrapeGoogleSearch "cat" envNewPageFails emptyWebPage "t").closeCount = 0)
      ∧ (scrapeGoogleImages "cat" envNewPageFails emptyImagesPage "t").closeCount = 0
      ∧ (scrapeGoogleVideos "cat" envNewPageFails emptyVideosPage "t").closeCount = 0
      ∧ (scrapeGoogleNews "cat" envNewPageFails emptyNewsPage "t").closeCount = 0
      ∧ (scrapeGoogleSearch "cat" envCloseFails emptyWebPage "t").closeCount = 2 :=
  ⟨⟨rfl, rfl⟩, rfl, rfl, rfl, rfl⟩

/-- Claim C5 (counterexample): the images-mode page-operation sequence
contains no `waitForSelector` call at all, refuting the claim that every
mode waits for a DOM readiness marker. -/
theorem images_steps_have_no_wait :
    ¬ ∃ op ∈ imagesSteps "cat", isWaitOp op = true := by
  decide

/-- Claim C5 (amended): the web, videos and news modes each perform
exactly one `waitForSelector` — for the markers `#search`, `.g` and
`.SoaBEf, .WlydOe` respectively, each bounded by a 10-second timeout and
placed after the navigation and before the extraction evaluate — while
the images mode performs none, running its scroll evaluate instead. -/
theorem mode_readiness_waits (query : String) :
    ((searchSteps query).filter isWaitOp
        = [PageOp.waitForSelector "#search" 10000])
      ∧ ((videosSteps query).filter isWaitOp
        = [PageOp.waitForSelector ".g" 10000])
      ∧ ((newsSteps query).filter isWaitOp
        = [PageOp.waitForSelector ".SoaBEf, .WlydOe" 10000])
      ∧ ((imagesSteps query).filter isWaitOp = [])
      ∧ searchSteps query
        = [PageOp.setUserAgent userAgent,
            PageOp.goto { query := query, tbm := none } 30000,
            PageOp.waitForSelector "#search" 10000,
            PageOp.evaluateExtract]
      ∧ videosSteps query
        = [PageOp.setUserAgent userAgent,
            PageOp.goto { query := query, tbm := some "vid" } 30000,
            PageOp.waitForSelector ".g" 10000,
            PageOp.evaluateExtract]
      ∧ newsSteps query
        = [PageOp.setUserAgent userAgent,
            PageOp.goto { query := query, tbm := some "nws" } 30000,
            PageOp.waitForSelector ".SoaBEf, .WlydOe" 10000,
            PageOp.evaluateExtract]
      ∧ imagesSteps query
        = [PageOp.setUserAgent userAgent,
            PageOp.goto { query := query, tbm := some "isch" } 30000,
            PageOp.evaluateScroll,
            PageOp.evaluateExtract] :=
  ⟨rfl, rfl, rfl, rfl, rfl, rfl, rfl, rfl⟩

theorem extractOrganic_eq_none_iff (b : OrganicBlock) :
    extractOrganic b = none ↔ b.h3 = none ∨ b.anchor = none := by
  cases h3 : b.h3 <;> cases ha : b.anchor <;> simp [extractOrganic, h3, ha]

theorem trim_empty : "".trim = "" := by
  show ("".toSubstring.trim).toString = ""
  rw [Substring.trim]
  rw [Substring.takeWhileAux]
  rw [Substring.takeRightWhileAux]
  simp [String.toSubstring, String.endPos, String.utf8ByteSize, Substring.toString]
  rfl

/-- Claim C4 (counterexample): a result block whose `h3` and `a` elements
are present but textually empty is emitted into `organicResults` with an
empty `title` and an empty `url` — the guard tests element presence, not
text non-emptiness. -/
theorem organic_empty_title_emitted :
    ¬ (∀ r ∈ (webEvaluate pgEmptyTitle).organicResults,
        ¬ r.title = "" ∧ ¬ r.url = "") := by
  intro h
  have hmem : emptyFieldsResult ∈ (webEvaluate pgEmptyTitle).organicResults := by
    simp [webEvaluate, forEachPush_eq, pgEmptyTitle, emptyWebPage,
      emptyTitleBlock, extractOrganic, emptyFieldsResult]
  exact (h _ hmem).1 trim_empty

/-- Claim C4 (amended): every `organicResults` entry comes from a block in
which both a title (`h3`) element and a link (`a`) element are present,
and any block lacking either element is excluded; the emitted `title` and
`url` are the trimmed text and the `href` of those elements and are not
themselves checked for non-emptiness. -/
theorem organic_entries_from_present_elements (pg : WebPage)
    (r : OrganicResult) (hr : r ∈ (webEvaluate pg).organicResults) :
    (∃ b, b ∈ pg.organicBlocks ∧ b.h3.isSome = true ∧ b.anchor.isSome = true
        ∧ extractOrganic b = some r)
      ∧ ∀ b, b ∈ pg.organicBlocks → (b.h3 = none ∨ b.anchor = none) →
          extractOrganic b = none := by
  constructor
  · have h : (webEvaluate pg).organicResults
        = pg.organicBlocks.filterMap extractOrganic := by
      simp [webEvaluate, forEachPush_eq]
    rw [h] at hr
    rcases List.mem_filterMap.mp hr with ⟨b, hb, hfb⟩
    have hne : ¬ extractOrganic b = none := by simp [hfb]
    rw [extractOrganic_eq_none_iff] at hne
    push_neg at hne
    refine ⟨b, hb, ?_, ?_, hfb⟩
    · exact Option.isSome_iff_ne_none.mpr hne.1
    · exact Option.isSome_iff_ne_none.mpr hne.2
  · intro b _ hnone
    exact (extractOrganic_eq_none_iff b).mpr hnone

/-- Witness for the amended C4 theorem at a concrete page with one
ordinary result block. -/
theorem organic_entries_from_present_elements_witness :
    goodResult ∈ (webEvaluate pgGood).organicResults
      ∧ ((∃ b, b ∈ pgGood.organicBlocks ∧ b.h3.isSome = true
            ∧ b.anchor.isSome = true ∧ extractOrganic b = some goodResult)
          ∧ ∀ b, b ∈ pgGood.organicBlocks → (b.h3 = none ∨ b.anchor = none) →
              extractOrganic b = none) := by
  have hmem : goodResult ∈ (webEvaluate pgGood).organicResults := by
    simp [webEvaluate, forEachPush_eq, pgGood, emptyWebPage, goodBlock,
      extractOrganic, goodResult]
  exact ⟨hmem, organic_entries_from_present_elements pgGood goodResult hmem⟩

/-- Claim C6: on each of the four endpoints, when the invoked scraper
rejects with message `m`, the router responds HTTP 500 with exactly
`{error: m}`. -/
theorem router_maps_rejection_to_500 (q : String) (m : String)
    (env : ScrapeEnv) (wpg : WebPage) (ipg : ImagesPage) (vpg : VideosPage)
    (npg : NewsPage) (now : String) (hq : ¬ q = "")
    (hw : (scrapeGoogleSearch q env wpg now).result = Except.error m)
    (hi : (scrapeGoogleImages q env ipg now).result = Except.error m)
    (hv : (scrapeGoogleVideos q env vpg now).result = Except.error m)
    (hn : (scrapeGoogleNews q env npg now).result = Except.error m) :
    (fetch "GET" "/search" (some q) env wpg ipg vpg npg now
        = { status := 500, body := Body.errorMsg m, invoked := [Mode.web] })
      ∧ (fetch "GET" "/images" (some q) env wpg ipg vpg npg now
        = { status := 500, body := Body.errorMsg m, invoked := [Mode.images] })
      ∧ (fetch "GET" "/videos" (some q) env wpg ipg vpg npg now
        = { status := 500, body := Body.errorMsg m, invoked := [Mode.videos] })
      ∧ (fetch "GET" "/news" (some q) env wpg ipg vpg npg now
        = { status := 500, body := Body.errorMsg m, invoked := [Mode.news] }) := by
  have hq' : (q == "") = false := by
    simp [hq]
  refine ⟨?_, ?_, ?_, ?_⟩ <;>
    simp [fetch, truthy, hq', hw, hi, hv, hn]

/-- Witness for the C6 theorem: a concrete request on which the browser
launch rejects with message `launch failed`. -/
theorem router_maps_rejection_to_500_witness :
    (¬ ("cat" : String) = "")
      ∧ ((fetch "GET" "/search" (some "cat") envLaunchFails emptyWebPage
            emptyImagesPage emptyVideosPage emptyNewsPage "t"
          = { status := 500, body := Body.errorMsg "launch failed"
              invoked := [Mode.web] })
        ∧ (fetch "GET" "/images" (some "cat") envLaunchFails emptyWebPage
            emptyImagesPage emptyVideosPage emptyNewsPage "t"
          = { status := 500, body := Body.errorMsg "launch failed"
              invoked := [Mode.images] })
        ∧ (fetch "GET" "/videos" (some "cat") envLaunchFails emptyWebPage
            emptyImagesPage emptyVideosPage emptyNewsPage "t"
          = { status := 500, body := Body.errorMsg "launch failed"
              invoked := [Mode.videos] })
        ∧ (fetch "GET" "/news" (some "cat") envLaunchFails emptyWebPage
            emptyImagesPage emptyVideosPage emptyNewsPage "t"
          = { status := 500, body := Body.errorMsg "launch failed"
              invoked := [Mode.news] })) :=
  ⟨by decide,
    router_maps_rejection_to_500 "cat" "launch failed" envLaunchFails
      emptyWebPage emptyImagesPage emptyVideosPage emptyNewsPage "t"
      (by decide) rfl rfl rfl rfl⟩

end GoogleScraper
